import Mathlib

/-!
Verification of the sunnah.com read-only REST API (`src/main.py`).

The file shallowly embeds the request handlers: the database is a Lean list
of records, a Flask query string becomes explicit `Option String` arguments,
HTTP failures become an `ApiError` value, and each route handler becomes a
pure function returning `Except ApiError _`.  Python builtins that the
handlers rely on (`str.strip`, `int`, `float`, `str.split`, dict construction
and truthiness-based `or`) are translated faithfully below.
-/

namespace SunnahApi

/-- Python `str.strip()`: drop leading and trailing whitespace. -/
def pyStrip (s : String) : String :=
  String.mk (((s.toList.dropWhile Char.isWhitespace).reverse.dropWhile
      Char.isWhitespace).reverse)

/-- Tail of a Python integer-literal digit run: digits, with single
underscores allowed between digits, accumulating the value. -/
def pyDigitsAux : Nat → List Char → Option Nat
  | acc, [] => some acc
  | _, ['_'] => none
  | acc, '_' :: c :: rest =>
      if c.isDigit then pyDigitsAux (acc * 10 + (c.toNat - 48)) rest else none
  | acc, c :: rest =>
      if c.isDigit then pyDigitsAux (acc * 10 + (c.toNat - 48)) rest else none

/-- A Python digit run: nonempty, starts with a digit, underscores only
between digits. -/
def pyNatDigits : List Char → Option Nat
  | [] => none
  | c :: rest => if c.isDigit then pyDigitsAux (c.toNat - 48) rest else none

/-- Python `int(s)` on a decimal string: optional surrounding whitespace,
optional sign, then a digit run.  Returns `none` where CPython raises
`ValueError`. -/
def pyParseInt (s : String) : Option Int :=
  match (pyStrip s).toList with
  | '+' :: rest => (pyNatDigits rest).map (fun n => (n : Int))
  | '-' :: rest => (pyNatDigits rest).map (fun n => -(n : Int))
  | cs => (pyNatDigits cs).map (fun n => (n : Int))

/-- Split a character list on a separator, keeping empty groups (the
behaviour of Python `str.split(sep)`). -/
def splitOnChar (sep : Char) : List Char → List (List Char)
  | [] => [[]]
  | c :: rest =>
      let r := splitOnChar sep rest
      if c = sep then [] :: r
      else
        match r with
        | [] => [[c]]
        | g :: gs => (c :: g) :: gs

/-- Numeric value of a digit run. -/
def natOfDigits (cs : List Char) : Nat :=
  cs.foldl (fun a c => a * 10 + (c.toNat - 48)) 0

def allDigits (cs : List Char) : Bool :=
  cs.all Char.isDigit

/-- Mantissa of a Python float literal: `digits`, `digits.digits?` or
`.digits`, evaluated as a rational. -/
def pyFloatMantissa (m : List Char) : Option Rat :=
  match splitOnChar '.' m with
  | [w] => if w ≠ [] ∧ allDigits w then some ((natOfDigits w : Rat)) else none
  | [w, f] =>
      if (w ≠ [] ∨ f ≠ []) ∧ allDigits w ∧ allDigits f then
        some ((natOfDigits w : Rat) + (natOfDigits f : Rat) / (10 : Rat) ^ f.length)
      else none
  | _ => none

/-- Exponent of a Python float literal: optional sign then digits. -/
def pyFloatExponent (e : List Char) : Option Int :=
  match e with
  | '+' :: r => if r ≠ [] ∧ allDigits r then some ((natOfDigits r : Int)) else none
  | '-' :: r => if r ≠ [] ∧ allDigits r then some (-(natOfDigits r : Int)) else none
  | r => if r ≠ [] ∧ allDigits r then some ((natOfDigits r : Int)) else none

/-- Python `float(s)` on finite decimal literals, with the value read as an
exact rational (IEEE rounding is irrelevant to the control flow verified
here; `inf`/`nan` and underscore separators are not modelled).  Returns
`none` where CPython raises `ValueError`. -/
def pyParseFloat (s : String) : Option Rat :=
  let cs := (pyStrip s).toList
  let signAndRest : Bool × List Char :=
    match cs with
    | '+' :: r => (false, r)
    | '-' :: r => (true, r)
    | r => (false, r)
  let body := signAndRest.2.map Char.toLower
  let mag : Option Rat :=
    match splitOnChar 'e' body with
    | [m] => pyFloatMantissa m
    | [m, e] =>
        match pyFloatMantissa m, pyFloatExponent e with
        | some mv, some ev => some (mv * (10 : Rat) ^ ev)
        | _, _ => none
    | _ => none
  mag.map (fun v => if signAndRest.1 then -v else v)

/-- Decidable equality on `Except`, so concrete handler outcomes can be
checked by evaluation. -/
instance exceptDecidableEq {ε α : Type} [DecidableEq ε] [DecidableEq α] :
    DecidableEq (Except ε α) := fun a b =>
  match a, b with
  | Except.error e₁, Except.error e₂ =>
      if h : e₁ = e₂ then Decidable.isTrue (congrArg Except.error h)
      else Decidable.isFalse (fun hc => h (by cases hc; rfl))
  | Except.error _, Except.ok _ => Decidable.isFalse (fun hc => Except.noConfusion hc)
  | Except.ok _, Except.error _ => Decidable.isFalse (fun hc => Except.noConfusion hc)
  | Except.ok a₁, Except.ok a₂ =>
      if h : a₁ = a₂ then Decidable.isTrue (congrArg Except.ok h)
      else Decidable.isFalse (fun hc => h (by cases hc; rfl))

/-- HTTP-level failures raised by the handlers.  `unhandled` stands for a
Python exception that no handler catches: Flask surfaces it as HTTP 500. -/
inductive ApiError where
  | badRequest (details : String)
  | notFound
  | unhandled (details : String)
  deriving DecidableEq, Repr

/-- The HTTP status code each failure is surfaced with. -/
def ApiError.code : ApiError → Nat
  | .badRequest _ => 400
  | .notFound => 404
  | .unhandled _ => 500

/-! ### Data model (`models.py` projections used by `src/main.py`) -/

/-- A hadith record, with the fields `src/main.py` queries: owning
collection, book number, chapter id (`babID`, fractional), collection-scoped
hadith number, and the two URN namespaces. -/
structure Hadith where
  collection : String
  bookNumber : String
  babID : Rat
  hadithNumber : String
  englishURN : Int
  arabicURN : Int
  deriving DecidableEq, Repr

/-- The stable key-value rendering of a hadith. -/
structure SerializedHadith where
  collection : String
  bookNumber : String
  babID : Rat
  hadithNumber : String
  englishURN : Int
  arabicURN : Int
  deriving DecidableEq, Repr

/-- Modelled from the spec: `models.py` is not under `src/`.  `serialize()`
renders the public fields of a hadith to a stable key-value representation. -/
def Hadith.serialize (h : Hadith) : SerializedHadith :=
  ⟨h.collection, h.bookNumber, h.babID, h.hadithNumber, h.englishURN, h.arabicURN⟩

/-- A book record, with the fields `src/main.py` queries: owning collection,
internal id `ourBookID`, and the status flag (4 means published). -/
structure Book where
  collection : String
  ourBookID : Int
  status : Int
  deriving DecidableEq, Repr

/-- The stable key-value rendering of a book: the status flag and the raw
internal id are not exposed. -/
structure SerializedBook where
  collection : String
  bookNumber : String
  deriving DecidableEq, Repr

/-- Modelled from the spec: `models.py` is not under `src/`.  The public book
number is derived from the internal id by a deterministic mapping. -/
def Book.serialize (b : Book) : SerializedBook :=
  ⟨b.collection, toString b.ourBookID.natAbs⟩

/-- Modelled from the spec: `models.py` is not under `src/`.
`Book.get_id_from_number` deterministically resolves a human-facing book
number string to an internal book id, callable before query construction. -/
def Book.get_id_from_number (bookNumber : String) : Int :=
  (pyParseInt bookNumber).getD 0

/-- A chapter record, with the fields `src/main.py` queries. -/
structure Chapter where
  collection : String
  arabicBookID : Int
  babID : Rat
  deriving DecidableEq, Repr

/-- Modelled from the spec: `models.py` is not under `src/`. -/
def Chapter.serialize (c : Chapter) : Chapter := c

/-- A collection record, with the fields `src/main.py` queries. -/
structure HadithCollection where
  name : String
  collectionID : Int
  deriving DecidableEq, Repr

/-- Modelled from the spec: `models.py` is not under `src/`. -/
def HadithCollection.serialize (c : HadithCollection) : HadithCollection := c

/-! ### Query execution

A query descriptor applied to the list-of-records database: `WHERE` becomes
`List.filter` and `ORDER BY key` becomes a stable ascending sort on an
integer key (SQL order is modelled as stable so execution stays
deterministic). -/

/-- Stable insertion into a list sorted ascending by `key`. -/
def insertByKey {α : Type} (key : α → Int) (x : α) : List α → List α
  | [] => [x]
  | y :: ys => if key x < key y then x :: y :: ys else y :: insertByKey key x ys

/-- Stable sort ascending by `key` (the `ORDER BY` of an executed query). -/
def orderBy {α : Type} (key : α → Int) : List α → List α
  | [] => []
  | x :: xs => insertByKey key x (orderBy key xs)

/-! ### Response shapers (`paginate_results` / `single_resource`) -/

/-- The body of a paginated response. -/
structure Page (β : Type) where
  data : List β
  total : Nat
  limit : Nat
  previous : Option Nat
  next : Option Nat
  deriving DecidableEq, Repr

/-- `Pagination.prev_num`: the previous page number, or none on page 1. -/
def prevNum (page : Int) : Option Nat :=
  if 1 < page then some (page - 1).toNat else none

/-- `Pagination.next_num`: the next page number, or none on the last page. -/
def nextNum (page : Int) (pages : Nat) : Option Nat :=
  if page < (pages : Int) then some (page + 1).toNat else none

/-- Modelled from the spec (§4.2) and the flask-sqlalchemy contract of
`db.paginate`, which is not code of this repository: `per_page` is first
clamped to `max_per_page`; a page or per-page value below 1 aborts with 404;
the window is `OFFSET (page-1)*per_page LIMIT per_page`; an empty window on a
page other than 1 aborts with 404; `total` is the unwindowed count. -/
def db_paginate {α β : Type} (serialize : α → β) (records : List α)
    (page perPage maxPerPage : Int) : Except ApiError (Page β) :=
  if page < 1 then Except.error ApiError.notFound
  else if min perPage maxPerPage < 1 then Except.error ApiError.notFound
  else if ((records.drop ((page - 1) * min perPage maxPerPage).toNat).take
      (min perPage maxPerPage).toNat).isEmpty && page != 1 then
    Except.error ApiError.notFound
  else
    Except.ok
      ⟨((records.drop ((page - 1) * min perPage maxPerPage).toNat).take
          (min perPage maxPerPage).toNat).map serialize,
        records.length, (min perPage maxPerPage).toNat,
        prevNum page,
        nextNum page
          ((records.length + (min perPage maxPerPage).toNat - 1) /
            (min perPage maxPerPage).toNat)⟩

/-- `int(request.args.get(name, default))`: the default when the parameter
is absent, Python `int` on its raw value otherwise, where an unparsable
value is an uncaught `ValueError`. -/
def pyIntArg (default : Int) (arg : Option String) : Except ApiError Int :=
  match arg with
  | none => Except.ok default
  | some s =>
      match pyParseInt s with
      | none => Except.error (ApiError.unhandled "ValueError")
      | some v => Except.ok v

/-- The `paginate_results` decorator: read `limit` (default 50) and `page`
(default 1) from the query string with Python `int` (an unparsable value is
an uncaught `ValueError`), run the wrapped handler to get the query, execute
it and window it with `db.paginate` capped at 100 per page. -/
def paginate_results {α β : Type} (serialize : α → β)
    (handler : Except ApiError (List α)) (limitArg pageArg : Option String) :
    Except ApiError (Page β) :=
  match pyIntArg 50 limitArg with
  | Except.error e => Except.error e
  | Except.ok limit =>
      match pyIntArg 1 pageArg with
      | Except.error e => Except.error e
      | Except.ok page =>
          match handler with
          | Except.error e => Except.error e
          | Except.ok records => db_paginate serialize records page limit 100

/-- The `single_resource` decorator: execute the wrapped handler's query and
return the serialized first matching record, or abort 404 when no record
matches (`db.first_or_404`, modelled from the spec §4.2 since
flask-sqlalchemy is not code of this repository). -/
def single_resource {α β : Type} (serialize : α → β) (rows : List α) :
    Except ApiError β :=
  match rows with
  | [] => Except.error ApiError.notFound
  | x :: _ => Except.ok (serialize x)

/-! ### Route handlers

Each `api_*_query` function is the query the decorated Python handler
returns (its `WHERE`/`ORDER BY` executed against the list database); the
`api_*` function is the decorated route. -/

/-- `/v1/collections` query: all collections ordered by `collectionID`. -/
def api_collections_query (dbC : List HadithCollection) : List HadithCollection :=
  orderBy (fun c => c.collectionID) dbC

/-- `/v1/collections` (paginated). -/
def api_collections (dbC : List HadithCollection)
    (limitArg pageArg : Option String) : Except ApiError (Page HadithCollection) :=
  paginate_results HadithCollection.serialize (Except.ok (api_collections_query dbC))
    limitArg pageArg

/-- `/v1/collections/<name>` query. -/
def api_collection_query (dbC : List HadithCollection) (name : String) :
    List HadithCollection :=
  dbC.filter (fun c => c.name == name)

/-- `/v1/collections/<name>` (singular). -/
def api_collection (dbC : List HadithCollection) (name : String) :
    Except ApiError HadithCollection :=
  single_resource HadithCollection.serialize (api_collection_query dbC name)

/-- `/v1/collections/<name>/books` query: published books of the collection,
ordered by the absolute value of the internal id. -/
def api_collection_books_query (dbB : List Book) (name : String) : List Book :=
  orderBy (fun b => (b.ourBookID.natAbs : Int))
    (dbB.filter (fun b => b.collection == name && b.status == 4))

/-- `/v1/collections/<name>/books` (paginated). -/
def api_collection_books (dbB : List Book) (name : String)
    (limitArg pageArg : Option String) : Except ApiError (Page SerializedBook) :=
  paginate_results Book.serialize (Except.ok (api_collection_books_query dbB name))
    limitArg pageArg

/-- `/v1/collections/<name>/books/<bookNumber>` query. -/
def api_collection_book_query (dbB : List Book) (name bookNumber : String) :
    List Book :=
  dbB.filter (fun b =>
    b.collection == name && b.status == 4 &&
      b.ourBookID == Book.get_id_from_number bookNumber)

/-- `/v1/collections/<name>/books/<bookNumber>` (singular). -/
def api_collection_book (dbB : List Book) (name bookNumber : String) :
    Except ApiError SerializedBook :=
  single_resource Book.serialize (api_collection_book_query dbB name bookNumber)

/-- `/v1/collections/<c>/books/<b>/hadiths` query. -/
def api_collection_book_hadiths_query (db : List Hadith)
    (collection_name bookNumber : String) : List Hadith :=
  orderBy (fun h => h.englishURN)
    (db.filter (fun h => h.collection == collection_name && h.bookNumber == bookNumber))

/-- `/v1/collections/<c>/books/<b>/hadiths` (paginated). -/
def api_collection_book_hadiths (db : List Hadith)
    (collection_name bookNumber : String) (limitArg pageArg : Option String) :
    Except ApiError (Page SerializedHadith) :=
  paginate_results Hadith.serialize
    (Except.ok (api_collection_book_hadiths_query db collection_name bookNumber))
    limitArg pageArg

/-- `/v1/collections/<c>/hadiths/<hadithNumber>` query. -/
def api_collection_hadith_query (db : List Hadith)
    (collection_name hadithNumber : String) : List Hadith :=
  db.filter (fun h => h.collection == collection_name && h.hadithNumber == hadithNumber)

/-- `/v1/collections/<c>/hadiths/<hadithNumber>` (singular). -/
def api_collection_hadith (db : List Hadith)
    (collection_name hadithNumber : String) : Except ApiError SerializedHadith :=
  single_resource Hadith.serialize
    (api_collection_hadith_query db collection_name hadithNumber)

/-- `/v1/collections/<c>/books/<b>/chapters` query. -/
def api_collection_book_chapters_query (dbCh : List Chapter)
    (collection_name bookNumber : String) : List Chapter :=
  (dbCh.filter (fun c =>
      c.collection == collection_name &&
        c.arabicBookID == Book.get_id_from_number bookNumber)).mergeSort
    (fun c₁ c₂ => c₁.babID ≤ c₂.babID)

/-- `/v1/collections/<c>/books/<b>/chapters` (paginated). -/
def api_collection_book_chapters (dbCh : List Chapter)
    (collection_name bookNumber : String) (limitArg pageArg : Option String) :
    Except ApiError (Page Chapter) :=
  paginate_results Chapter.serialize
    (Except.ok (api_collection_book_chapters_query dbCh collection_name bookNumber))
    limitArg pageArg

/-- `/v1/collections/<c>/books/<b>/chapters/<float:chapterId>` query. -/
def api_collection_book_chapter_query (dbCh : List Chapter)
    (collection_name bookNumber : String) (chapterId : Rat) : List Chapter :=
  dbCh.filter (fun c =>
    c.collection == collection_name &&
      c.arabicBookID == Book.get_id_from_number bookNumber && c.babID == chapterId)

/-- `/v1/collections/<c>/books/<b>/chapters/<float:chapterId>` (singular). -/
def api_collection_book_chapter (dbCh : List Chapter)
    (collection_name bookNumber : String) (chapterId : Rat) :
    Except ApiError Chapter :=
  single_resource Chapter.serialize
    (api_collection_book_chapter_query dbCh collection_name bookNumber chapterId)

/-- The optional query-string filters of `/v1/hadiths`; `none` is an absent
parameter. -/
structure HadithsArgs where
  collection : Option String
  bookNumber : Option String
  chapterId : Option String
  hadithNumber : Option String
  deriving DecidableEq, Repr

/-- `/v1/hadiths` query.  Each supplied non-empty parameter (Python
truthiness: `if collection:`) adds one equality predicate; `chapterId` is
coerced with a bare `float(...)`, so an unparsable value is an uncaught
`ValueError`.  The final query is ordered by English URN. -/
def api_hadiths_query (db : List Hadith) (args : HadithsArgs) :
    Except ApiError (List Hadith) :=
  let s1 :=
    match args.collection with
    | some c => if c = "" then db else db.filter (fun h => h.collection == c)
    | none => db
  let s2 :=
    match args.bookNumber with
    | some b => if b = "" then s1 else s1.filter (fun h => h.bookNumber == b)
    | none => s1
  let s3e : Except ApiError (List Hadith) :=
    match args.chapterId with
    | some cid =>
        if cid = "" then Except.ok s2
        else
          match pyParseFloat cid with
          | none => Except.error (ApiError.unhandled "ValueError")
          | some x => Except.ok (s2.filter (fun h => h.babID == x))
    | none => Except.ok s2
  match s3e with
  | Except.error e => Except.error e
  | Except.ok s3 =>
      let s4 :=
        match args.hadithNumber with
        | some n => if n = "" then s3 else s3.filter (fun h => h.hadithNumber == n)
        | none => s3
      Except.ok (orderBy (fun h => h.englishURN) s4)

/-- `/v1/hadiths` (paginated, multi-filter). -/
def api_hadiths (db : List Hadith) (args : HadithsArgs)
    (limitArg pageArg : Option String) : Except ApiError (Page SerializedHadith) :=
  paginate_results Hadith.serialize (api_hadiths_query db args) limitArg pageArg

/-- `/v1/hadiths/<int:urn>` query: a record matches when its Arabic URN or
its English URN equals the requested value. -/
def api_hadith_query (db : List Hadith) (urn : Int) : List Hadith :=
  db.filter (fun h => h.arabicURN == urn || h.englishURN == urn)

/-- `/v1/hadiths/<int:urn>` (singular). -/
def api_hadith (db : List Hadith) (urn : Int) : Except ApiError SerializedHadith :=
  single_resource Hadith.serialize (api_hadith_query db urn)

/-- `/v1/hadiths/random`: a record of the fixed collection under a random
order; the nondeterministic `func.rand()` shuffle is a parameter. -/
def api_hadiths_random (db : List Hadith)
    (randOrder : List Hadith → List Hadith) : Except ApiError SerializedHadith :=
  single_resource Hadith.serialize
    (randOrder (db.filter (fun h => h.collection == "riyadussalihin")))

/-! ### Bulk URN resolver (`/v1/hadiths/urns`) -/

/-- The comma-split, per-token-stripped, empty-token-discarding tokenizer:
`[p.strip() for p in urns_param.split(",") if p.strip()]`. -/
def urnsParts (urns_param : String) : List String :=
  (((splitOnChar ',' urns_param.toList).map (fun g => String.mk g)).map
      pyStrip).filter (fun p => p ≠ "")

/-- The parse-validate-dedup loop of `api_hadiths_by_urns`: walk the tokens,
collecting parsed identifiers not yet seen (in order) and unparsable tokens
(in order); `seen` mirrors the Python membership set. -/
def dedupParse : List String → List Int → List String → List Int →
    List Int × List String
  | [], urns, invalid, _ => (urns, invalid)
  | p :: rest, urns, invalid, seen =>
      match pyParseInt p with
      | none => dedupParse rest urns (invalid ++ [p]) seen
      | some u =>
          if u ∈ seen then dedupParse rest urns invalid seen
          else dedupParse rest (urns ++ [u]) invalid (seen ++ [u])

/-- The deduplicated identifier list the resolver works from. -/
def resolvedUrns (urns_param : String) : List Int :=
  (dedupParse (urnsParts urns_param) [] [] []).1

/-- The unparsable tokens the resolver rejects on. -/
def invalidTokens (urns_param : String) : List String :=
  (dedupParse (urnsParts urns_param) [] [] []).2

/-- The single bulk query: all records whose English URN or Arabic URN is in
the requested set. -/
def fetchedResults (db : List Hadith) (urns : List Int) : List Hadith :=
  db.filter (fun h => urns.contains h.englishURN || urns.contains h.arabicURN)

/-- Lookup in a Python dict comprehension `{key(h): h for h in results}`:
the last record with the given key wins. -/
def byUrnGet (key : Hadith → Int) (results : List Hadith) (u : Int) :
    Option Hadith :=
  results.foldl (fun acc h => if key h = u then some h else acc) none

/-- `by_eng.get(u) or by_ar.get(u)` (records are truthy, so Python `or`
falls through exactly when the English index has no entry). -/
def resolveOne (results : List Hadith) (u : Int) : Option Hadith :=
  match byUrnGet (fun h => h.englishURN) results u with
  | some h => some h
  | none => byUrnGet (fun h => h.arabicURN) results u

/-- Whether some fetched record's English URN or Arabic URN equals `u`. -/
def foundIn (results : List Hadith) (u : Int) : Bool :=
  results.any (fun h => h.englishURN == u || h.arabicURN == u)

/-- The output loop of `api_hadiths_by_urns`: for each identifier in order,
append its serialized record to `data` when either index resolves it, and
the identifier itself to `missing` otherwise. -/
def buildOutput (results : List Hadith) : List Int →
    List SerializedHadith × List Int
  | [] => ([], [])
  | u :: rest =>
      let out := buildOutput results rest
      match resolveOne results u with
      | none => (out.1, u :: out.2)
      | some h => (h.serialize :: out.1, out.2)

/-- The bulk response body `{count, missing, data}`. -/
structure BulkResponse where
  count : Nat
  missing : List Int
  data : List SerializedHadith
  deriving DecidableEq, Repr

/-- The successful bulk response for a deduplicated identifier list. -/
def bulkRespond (db : List Hadith) (urns : List Int) : BulkResponse :=
  ⟨(buildOutput (fetchedResults db urns) urns).1.length,
    (buildOutput (fetchedResults db urns) urns).2,
    (buildOutput (fetchedResults db urns) urns).1⟩

def msgUrnsOnce : String :=
  "Query parameter 'urns' must be provided exactly once. Example: ?urns=305,306"

def msgUrnsRequired : String :=
  "Query parameter 'urns' is required. Example: ?urns=305,306"

def msgTooMany : String :=
  "Too many URNs (max 100)."

def msgInvalid (invalid : List String) : String :=
  "Invalid URN(s): " ++ String.intercalate ", " invalid

/-- `/v1/hadiths/urns`: `urnsArgs` is `request.args.getlist("urns")`, the
list of values supplied for the `urns` query parameter. -/
def api_hadiths_by_urns (urnsArgs : List String) (db : List Hadith) :
    Except ApiError BulkResponse :=
  if urnsArgs.length ≠ 1 then
    Except.error (ApiError.badRequest msgUrnsOnce)
  else if pyStrip (urnsArgs.headD "") = "" then
    Except.error (ApiError.badRequest msgUrnsRequired)
  else if urnsParts (pyStrip (urnsArgs.headD "")) = [] then
    Except.error (ApiError.badRequest msgUrnsRequired)
  else if invalidTokens (pyStrip (urnsArgs.headD "")) ≠ [] then
    Except.error (ApiError.badRequest
      (msgInvalid (invalidTokens (pyStrip (urnsArgs.headD "")))))
  else if (resolvedUrns (pyStrip (urnsArgs.headD ""))).length > 100 then
    Except.error (ApiError.badRequest msgTooMany)
  else
    Except.ok (bulkRespond db (resolvedUrns (pyStrip (urnsArgs.headD ""))))

/-- The spec-side description of deduplication: keep each distinct value
once, positioned at its first occurrence, by a left fold that appends a
value only when not already kept. -/
def firstSeenDedupFrom (init : List Int) (l : List Int) : List Int :=
  l.foldl (fun acc u => if u ∈ acc then acc else acc ++ [u]) init

/-- Spec-side first-seen deduplication of a value list. -/
def firstSeenDedup (l : List Int) : List Int :=
  firstSeenDedupFrom [] l

/-! ### Concrete fixtures used to instantiate the theorems -/

/-- A record addressable as English URN 305 or Arabic URN 1305. -/
def h305 : Hadith := ⟨"bukhari", "1", 1, "1", 305, 1305⟩

/-- A record addressable as English URN 306 or Arabic URN 1306. -/
def h306 : Hadith := ⟨"bukhari", "1", 1, "2", 306, 1306⟩

/-- A record whose Arabic URN (7) differs from its English URN (99). -/
def hAr7 : Hadith := ⟨"muslim", "2", 1, "7", 99, 7⟩

/-- A record whose English URN is 5. -/
def hEng5 : Hadith := ⟨"bukhari", "1", 1, "3", 5, 1001⟩

/-- A different record whose Arabic URN is the 5 of `hEng5`'s English URN. -/
def hAr5 : Hadith := ⟨"bukhari", "1", 1, "4", 6, 5⟩

/-- A published book. -/
def bookPub : Book := ⟨"bukhari", 3, 4⟩

/-- The bulk response for `urns=305,307` against the database `[h305]`. -/
def resp305 : BulkResponse := ⟨1, [307], [h305.serialize]⟩

/-- The page for `page=1,limit=2` over the database `[h305, h306]`. -/
def page305 : Page SerializedHadith :=
  ⟨[h305.serialize, h306.serialize], 2, 2, none, none⟩

/-! ### Helper lemmas: index lookups -/

theorem byUrnGet_foldl_none (key : Hadith → Int) (u : Int) :
    ∀ (l : List Hadith) (acc : Option Hadith),
      (l.foldl (fun acc h => if key h = u then some h else acc) acc = none ↔
        acc = none ∧ ∀ h ∈ l, key h ≠ u) := by
  intro l
  induction l with
  | nil => intro acc; simp
  | cons x xs ih =>
      intro acc
      rw [List.foldl_cons, ih]
      by_cases hx : key x = u
      · simp [hx, List.forall_mem_cons]
      · simp [hx, List.forall_mem_cons]

theorem byUrnGet_eq_none_iff (key : Hadith → Int) (results : List Hadith) (u : Int) :
    byUrnGet key results u = none ↔ ∀ h ∈ results, key h ≠ u := by
  unfold byUrnGet
  rw [byUrnGet_foldl_none]
  simp

theorem byUrnGet_foldl_some (key : Hadith → Int) (u : Int) :
    ∀ (l : List Hadith) (acc : Option Hadith) (h : Hadith),
      l.foldl (fun acc h => if key h = u then some h else acc) acc = some h →
      acc = some h ∨ (h ∈ l ∧ key h = u) := by
  intro l
  induction l with
  | nil => intro acc h hf; exact Or.inl hf
  | cons x xs ih =>
      intro acc h hf
      rw [List.foldl_cons] at hf
      rcases ih _ h hf with hacc | hmem
      · by_cases hx : key x = u
        · rw [if_pos hx] at hacc
          injection hacc with hxh
          subst hxh
          exact Or.inr ⟨List.mem_cons_self x xs, hx⟩
        · rw [if_neg hx] at hacc
          exact Or.inl hacc
      · exact Or.inr ⟨List.mem_cons_of_mem x hmem.1, hmem.2⟩

theorem byUrnGet_eq_some (key : Hadith → Int) (results : List Hadith) (u : Int)
    (h : Hadith) (hf : byUrnGet key results u = some h) :
    h ∈ results ∧ key h = u := by
  unfold byUrnGet at hf
  rcases byUrnGet_foldl_some key u results none h hf with hacc | hm
  · exact absurd hacc (by simp)
  · exact hm

theorem byUrnGet_isSome_of_mem (key : Hadith → Int) (results : List Hadith)
    (u : Int) (hex : ∃ h ∈ results, key h = u) :
    ∃ h, byUrnGet key results u = some h := by
  cases hg : byUrnGet key results u with
  | some h => exact ⟨h, rfl⟩
  | none =>
      rw [byUrnGet_eq_none_iff] at hg
      obtain ⟨h, hm, hk⟩ := hex
      exact absurd hk (hg h hm)

theorem resolveOne_eq_none_iff (results : List Hadith) (u : Int) :
    resolveOne results u = none ↔ foundIn results u = false := by
  unfold resolveOne
  cases hE : byUrnGet (fun h => h.englishURN) results u with
  | none =>
      rw [byUrnGet_eq_none_iff] at hE
      rw [byUrnGet_eq_none_iff]
      unfold foundIn
      rw [List.any_eq_false]
      constructor
      · intro hAr h hm
        simp [hE h hm, hAr h hm]
      · intro hall h hm
        have := hall h hm
        simp at this
        exact this.2
  | some h =>
      have hp := byUrnGet_eq_some _ results u h hE
      have hT : foundIn results u = true := by
        unfold foundIn
        rw [List.any_eq_true]
        exact ⟨h, hp.1, by simp [hp.2]⟩
      simp [hT]

theorem resolveOne_isNone_eq (results : List Hadith) (u : Int) :
    (resolveOne results u).isNone = !(foundIn results u) := by
  cases hF : foundIn results u
  · have h0 : resolveOne results u = none := (resolveOne_eq_none_iff results u).mpr hF
    rw [h0]
    rfl
  · cases hR : resolveOne results u with
    | none =>
        have := (resolveOne_eq_none_iff results u).mp hR
        rw [hF] at this
        exact absurd this (by simp)
    | some h => rfl

/-! ### Helper lemmas: the output loop -/

theorem buildOutput_eq (results : List Hadith) :
    ∀ urns : List Int,
      buildOutput results urns =
        (urns.filterMap (fun u => (resolveOne results u).map Hadith.serialize),
         urns.filter (fun u => (resolveOne results u).isNone)) := by
  intro urns
  induction urns with
  | nil => rfl
  | cons u rest ih =>
      simp only [buildOutput, ih]
      cases hR : resolveOne results u with
      | none => simp [List.filterMap_cons, List.filter_cons, hR]
      | some h => simp [List.filterMap_cons, List.filter_cons, hR]

theorem buildOutput_length (results : List Hadith) :
    ∀ urns : List Int,
      (buildOutput results urns).1.length + (buildOutput results urns).2.length =
        urns.length := by
  intro urns
  induction urns with
  | nil => rfl
  | cons u rest ih =>
      simp only [buildOutput]
      cases hR : resolveOne results u with
      | none => simp only [List.length_cons]; omega
      | some h => simp only [List.length_cons]; omega

/-! ### Helper lemmas: the parse-validate-dedup loop -/

theorem dedupParse_snd :
    ∀ (parts : List String) (urns : List Int) (invalid : List String)
      (seen : List Int),
      (dedupParse parts urns invalid seen).2 =
        invalid ++ parts.filter (fun p => (pyParseInt p).isNone) := by
  intro parts
  induction parts with
  | nil => intro urns invalid seen; simp [dedupParse]
  | cons p rest ih =>
      intro urns invalid seen
      cases hp : pyParseInt p with
      | none =>
          simp only [dedupParse, hp]
          rw [ih]
          simp [List.filter_cons, hp]
      | some u =>
          simp only [dedupParse, hp]
          by_cases hu : u ∈ seen
          · rw [if_pos hu, ih]
            simp [List.filter_cons, hp]
          · rw [if_neg hu, ih]
            simp [List.filter_cons, hp]

theorem dedupParse_fst :
    ∀ (parts : List String) (urns : List Int) (invalid : List String)
      (seen : List Int),
      (∀ v : Int, v ∈ seen ↔ v ∈ urns) →
      (dedupParse parts urns invalid seen).1 =
        firstSeenDedupFrom urns (parts.filterMap pyParseInt) := by
  intro parts
  induction parts with
  | nil =>
      intro urns invalid seen _
      simp [dedupParse, firstSeenDedupFrom]
  | cons p rest ih =>
      intro urns invalid seen hseen
      cases hp : pyParseInt p with
      | none =>
          simp only [dedupParse, hp]
          rw [ih _ _ _ hseen]
          simp [List.filterMap_cons, hp]
      | some u =>
          simp only [dedupParse, hp]
          by_cases hu : u ∈ seen
          · rw [if_pos hu, ih _ _ _ hseen]
            have hu' : u ∈ urns := (hseen u).mp hu
            simp [List.filterMap_cons, hp, firstSeenDedupFrom, hu']
          · rw [if_neg hu, ih]
            · have hu' : u ∉ urns := fun hc => hu ((hseen u).mpr hc)
              simp [List.filterMap_cons, hp, firstSeenDedupFrom, hu']
            · intro v
              simp only [List.mem_append, List.mem_singleton, hseen v]

theorem firstSeenDedupFrom_nodup :
    ∀ (l : List Int) (init : List Int),
      init.Nodup → (firstSeenDedupFrom init l).Nodup := by
  intro l
  induction l with
  | nil => intro init h; exact h
  | cons u rest ih =>
      intro init h
      simp only [firstSeenDedupFrom, List.foldl_cons]
      by_cases hu : u ∈ init
      · rw [if_pos hu]
        exact ih init h
      · rw [if_neg hu]
        refine ih _ ?_
        simp [List.nodup_append, h, hu]

theorem firstSeenDedupFrom_mem :
    ∀ (l : List Int) (init : List Int) (v : Int),
      v ∈ firstSeenDedupFrom init l ↔ v ∈ init ∨ v ∈ l := by
  intro l
  induction l with
  | nil => intro init v; simp [firstSeenDedupFrom]
  | cons u rest ih =>
      intro init v
      simp only [firstSeenDedupFrom, List.foldl_cons]
      by_cases hu : u ∈ init
      · rw [if_pos hu]
        have := ih init v
        simp only [firstSeenDedupFrom] at this
        rw [this]
        constructor
        · intro hc
          rcases hc with hc | hc
          · exact Or.inl hc
          · exact Or.inr (List.mem_cons_of_mem u hc)
        · intro hc
          rcases hc with hc | hc
          · exact Or.inl hc
          · rcases List.mem_cons.mp hc with hc | hc
            · subst hc; exact Or.inl hu
            · exact Or.inr hc
      · rw [if_neg hu]
        have := ih (init ++ [u]) v
        simp only [firstSeenDedupFrom] at this
        rw [this]
        simp only [List.mem_append, List.mem_singleton, List.mem_cons]
        tauto

/-! ### Helper lemmas: query execution and response shapers -/

theorem mem_insertByKey {α : Type} (key : α → Int) (x : α) :
    ∀ (l : List α) (y : α), y ∈ insertByKey key x l ↔ y = x ∨ y ∈ l := by
  intro l
  induction l with
  | nil => intro y; simp [insertByKey]
  | cons z zs ih =>
      intro y
      simp only [insertByKey]
      by_cases hk : key x < key z
      · rw [if_pos hk]
        simp [List.mem_cons]
      · rw [if_neg hk]
        simp only [List.mem_cons, ih]
        tauto

theorem mem_orderBy {α : Type} (key : α → Int) :
    ∀ (l : List α) (y : α), y ∈ orderBy key l ↔ y ∈ l := by
  intro l
  induction l with
  | nil => intro y; simp [orderBy]
  | cons z zs ih =>
      intro y
      simp only [orderBy]
      rw [mem_insertByKey]
      simp only [List.mem_cons, ih]

theorem single_resource_ok {α β : Type} (serialize : α → β) (rows : List α)
    (r : β) (h : single_resource serialize rows = Except.ok r) :
    ∃ a, a ∈ rows ∧ r = serialize a := by
  cases rows with
  | nil => exact Except.noConfusion h
  | cons x xs =>
      injection h with h'
      exact ⟨x, List.mem_cons_self x xs, h'.symm⟩

theorem db_paginate_ok_fields {α β : Type} (serialize : α → β) (records : List α)
    (page limit : Int) (r : Page β)
    (h : db_paginate serialize records page limit 100 = Except.ok r) :
    r.limit = (min limit 100).toNat ∧ r.limit ≤ 100 ∧
      r.data.length ≤ r.limit ∧ r.total = records.length := by
  simp only [db_paginate] at h
  split at h
  · exact Except.noConfusion h
  split at h
  · exact Except.noConfusion h
  split at h
  · exact Except.noConfusion h
  · injection h with h'
    subst h'
    refine ⟨rfl, ?_, ?_, rfl⟩
    · have hm : min limit 100 ≤ 100 := min_le_right limit 100
      exact Int.toNat_le.mpr (by exact_mod_cast hm)
    · simp only [List.length_map]
      exact List.length_take_le _ _

theorem db_paginate_page_one {α β : Type} (serialize : α → β) (records : List α)
    (limit : Int) (r : Page β)
    (h : db_paginate serialize records 1 limit 100 = Except.ok r) :
    r.data = (records.take (min limit 100).toNat).map serialize := by
  simp only [db_paginate] at h
  split at h
  · exact Except.noConfusion h
  split at h
  · exact Except.noConfusion h
  split at h
  · exact Except.noConfusion h
  · injection h with h'
    subst h'
    simp

theorem db_paginate_data_mem {α β : Type} (serialize : α → β) (records : List α)
    (page limit maxPer : Int) (r : Page β)
    (h : db_paginate serialize records page limit maxPer = Except.ok r) :
    ∀ x ∈ r.data, ∃ a, a ∈ records ∧ x = serialize a := by
  simp only [db_paginate] at h
  split at h
  · exact Except.noConfusion h
  split at h
  · exact Except.noConfusion h
  split at h
  · exact Except.noConfusion h
  · injection h with h'
    subst h'
    intro x hx
    simp only [List.mem_map] at hx
    obtain ⟨a, ha, rfl⟩ := hx
    refine ⟨a, ?_, rfl⟩
    exact List.mem_of_mem_drop (List.mem_of_mem_take ha)

theorem paginate_results_data_mem {α β : Type} (serialize : α → β)
    (records : List α) (limitArg pageArg : Option String) (r : Page β)
    (h : paginate_results serialize (Except.ok records) limitArg pageArg =
      Except.ok r) :
    ∀ x ∈ r.data, ∃ a, a ∈ records ∧ x = serialize a := by
  simp only [paginate_results] at h
  split at h
  · exact Except.noConfusion h
  · split at h
    · exact Except.noConfusion h
    · exact db_paginate_data_mem serialize records _ _ 100 r h

/-! ### Helper lemmas: the bulk resolver and the book queries -/

theorem api_hadiths_by_urns_ok (s : String) (db : List Hadith)
    (resp : BulkResponse) (h : api_hadiths_by_urns [s] db = Except.ok resp) :
    resp = bulkRespond db (resolvedUrns (pyStrip s)) := by
  unfold api_hadiths_by_urns at h
  split at h
  · exact Except.noConfusion h
  split at h
  · exact Except.noConfusion h
  split at h
  · exact Except.noConfusion h
  split at h
  · exact Except.noConfusion h
  split at h
  · exact Except.noConfusion h
  · injection h with h'
    exact h'.symm

theorem api_collection_books_query_status (dbB : List Book) (name : String) :
    ∀ b ∈ api_collection_books_query dbB name, b.status = 4 := by
  intro b hb
  unfold api_collection_books_query at hb
  rw [mem_orderBy] at hb
  rw [List.mem_filter] at hb
  have := hb.2
  simp only [Bool.and_eq_true, beq_iff_eq] at this
  exact this.2

theorem api_collection_book_query_status (dbB : List Book)
    (name bookNumber : String) :
    ∀ b ∈ api_collection_book_query dbB name bookNumber, b.status = 4 := by
  intro b hb
  unfold api_collection_book_query at hb
  rw [List.mem_filter] at hb
  have := hb.2
  simp only [Bool.and_eq_true, beq_iff_eq] at this
  exact this.1.2

/-! ### Claim theorems -/

/-- C1: for every bulk URN request that passes validation, the response is
`{count, missing, data}` with `count` the length of `data` (the number of
found items, not the number of requested identifiers); walking the
deduplicated identifiers in first-seen order, an identifier that some fetched
record's English URN or Arabic URN equals contributes its serialized record
to `data`, and any other identifier is appended to `missing`. -/
theorem bulk_urns_response_contract (s : String) (db : List Hadith)
    (resp : BulkResponse) (h : api_hadiths_by_urns [s] db = Except.ok resp) :
    resp.count = resp.data.length ∧
    resp.data = (resolvedUrns (pyStrip s)).filterMap
      (fun u => (resolveOne (fetchedResults db (resolvedUrns (pyStrip s))) u).map
        Hadith.serialize) ∧
    resp.missing = (resolvedUrns (pyStrip s)).filter
      (fun u => !(foundIn (fetchedResults db (resolvedUrns (pyStrip s))) u)) ∧
    resp.data.length + resp.missing.length = (resolvedUrns (pyStrip s)).length := by
  have hr := api_hadiths_by_urns_ok s db resp h
  subst hr
  unfold bulkRespond
  rw [buildOutput_eq]
  refine ⟨rfl, rfl, ?_, ?_⟩
  · apply List.filter_congr
    intro u _
    exact resolveOne_isNone_eq _ u
  · have hl := buildOutput_length
      (fetchedResults db (resolvedUrns (pyStrip s))) (resolvedUrns (pyStrip s))
    rw [buildOutput_eq] at hl
    exact hl

theorem bulk_urns_response_contract_witness :
    api_hadiths_by_urns ["305,307"] [h305] = Except.ok resp305 ∧
      resp305.count = resp305.data.length :=
  ⟨by decide, (bulk_urns_response_contract "305,307" [h305] resp305 (by decide)).1⟩

/-- C2: when every non-empty trimmed token of the `urns` value parses as an
integer, the resolver's deduplicated identifier list keeps each distinct
integer exactly once at its first occurrence (it equals the spec-side
first-seen deduplication, is duplicate-free and has the same members);
`"305,305,306"` resolves to `[305, 306]`; and the `data` and `missing`
output lists both follow this first-seen order: `data` is the
order-preserving filterMap of the index resolution over the deduplicated
list, and `missing` is a sublist of it. -/
theorem bulk_urns_dedup_first_seen (s : String)
    (_hall : ∀ p ∈ urnsParts (pyStrip s), (pyParseInt p).isSome) :
    resolvedUrns (pyStrip s) =
      firstSeenDedup ((urnsParts (pyStrip s)).filterMap pyParseInt) ∧
    (resolvedUrns (pyStrip s)).Nodup ∧
    (∀ v : Int, v ∈ resolvedUrns (pyStrip s) ↔
      v ∈ (urnsParts (pyStrip s)).filterMap pyParseInt) ∧
    resolvedUrns "305,305,306" = [305, 306] ∧
    (∀ (db : List Hadith) (resp : BulkResponse),
      api_hadiths_by_urns [s] db = Except.ok resp →
      resp.data = (resolvedUrns (pyStrip s)).filterMap
        (fun u => (resolveOne (fetchedResults db (resolvedUrns (pyStrip s))) u).map
          Hadith.serialize) ∧
      resp.missing.Sublist (resolvedUrns (pyStrip s))) := by
  have heq : resolvedUrns (pyStrip s) =
      firstSeenDedup ((urnsParts (pyStrip s)).filterMap pyParseInt) := by
    unfold resolvedUrns firstSeenDedup
    exact dedupParse_fst (urnsParts (pyStrip s)) [] [] [] (by simp)
  refine ⟨heq, ?_, ?_, by decide, ?_⟩
  · rw [heq]
    exact firstSeenDedupFrom_nodup _ [] List.nodup_nil
  · intro v
    rw [heq]
    unfold firstSeenDedup
    rw [firstSeenDedupFrom_mem]
    simp
  · intro db resp hok
    have hr := api_hadiths_by_urns_ok s db resp hok
    subst hr
    unfold bulkRespond
    rw [buildOutput_eq]
    exact ⟨rfl, List.filter_sublist _⟩

theorem bulk_urns_dedup_first_seen_witness :
    (∀ p ∈ urnsParts (pyStrip "305,305,306"), (pyParseInt p).isSome) ∧
    resolvedUrns (pyStrip "305,305,306") =
      firstSeenDedup ((urnsParts (pyStrip "305,305,306")).filterMap pyParseInt) :=
  ⟨by decide, (bulk_urns_dedup_first_seen "305,305,306" (by decide)).1⟩

/-- C3: a bulk URN request with at least one non-empty token that does not
parse as an integer fails with `BadRequest` (400) whose message lists every
offending token; no partial result is returned. -/
theorem bulk_urns_invalid_tokens_rejected (s : String) (db : List Hadith)
    (hbad : ∃ p ∈ urnsParts (pyStrip s), (pyParseInt p).isNone) :
    api_hadiths_by_urns [s] db =
      Except.error (ApiError.badRequest (msgInvalid
        ((urnsParts (pyStrip s)).filter (fun p => (pyParseInt p).isNone)))) ∧
    (ApiError.badRequest (msgInvalid
        ((urnsParts (pyStrip s)).filter (fun p => (pyParseInt p).isNone)))).code =
      400 := by
  obtain ⟨p, hp, hpn⟩ := hbad
  have hinv : invalidTokens (pyStrip s) =
      (urnsParts (pyStrip s)).filter (fun p => (pyParseInt p).isNone) := by
    unfold invalidTokens
    rw [dedupParse_snd]
    simp
  have hpf : p ∈ (urnsParts (pyStrip s)).filter (fun p => (pyParseInt p).isNone) :=
    List.mem_filter.mpr ⟨hp, hpn⟩
  have hinvne : invalidTokens (pyStrip s) ≠ [] := by
    rw [hinv]
    exact List.ne_nil_of_mem hpf
  have hpartsne : urnsParts (pyStrip s) ≠ [] := List.ne_nil_of_mem hp
  have hsne : pyStrip s ≠ "" := by
    intro hc
    rw [hc] at hpartsne
    exact hpartsne (by decide)
  constructor
  · simp [api_hadiths_by_urns, hsne, hpartsne, hinvne, hinv]
    intro hnone
    exact absurd (Option.isNone_iff_eq_none.mp hpn) (hnone p hp)
  · rfl

theorem bulk_urns_invalid_tokens_rejected_witness :
    (∃ p ∈ urnsParts (pyStrip "305,abc"), (pyParseInt p).isNone) ∧
    api_hadiths_by_urns ["305,abc"] [h305] =
      Except.error (ApiError.badRequest (msgInvalid
        ((urnsParts (pyStrip "305,abc")).filter (fun p => (pyParseInt p).isNone)))) :=
  ⟨by decide, (bulk_urns_invalid_tokens_rejected "305,abc" [h305] (by decide)).1⟩

/-- C4: a bulk URN request whose `urns` query parameter is supplied more
than once fails with `BadRequest` (400), whatever the individual values
are. -/
theorem bulk_urns_repeated_param_rejected (urnsArgs : List String)
    (db : List Hadith) (hmulti : 1 < urnsArgs.length) :
    api_hadiths_by_urns urnsArgs db =
      Except.error (ApiError.badRequest msgUrnsOnce) ∧
    (ApiError.badRequest msgUrnsOnce).code = 400 := by
  constructor
  · unfold api_hadiths_by_urns
    rw [if_pos (by omega : urnsArgs.length ≠ 1)]
  · rfl

theorem bulk_urns_repeated_param_rejected_witness :
    1 < (["1", "2"] : List String).length ∧
    api_hadiths_by_urns ["1", "2"] [h305] =
      Except.error (ApiError.badRequest msgUrnsOnce) :=
  ⟨by decide, (bulk_urns_repeated_param_rejected ["1", "2"] [h305] (by decide)).1⟩

/-- C5: every singular-mode route goes through `single_resource`; a query
matching zero records yields the `NotFound` failure (HTTP 404), never a
successful response with an empty body, and a query with at least one match
returns the serialized first matching record. -/
theorem singular_route_not_found_contract {α β : Type} (serialize : α → β)
    (rows : List α) :
    (rows = [] →
      single_resource serialize rows = Except.error ApiError.notFound ∧
        ApiError.notFound.code = 404) ∧
    (∀ x rest, rows = x :: rest →
      single_resource serialize rows = Except.ok (serialize x)) := by
  constructor
  · intro hnil
    subst hnil
    exact ⟨rfl, rfl⟩
  · intro x rest hcons
    subst hcons
    rfl

theorem singular_route_not_found_contract_witness :
    (([] : List Hadith) = [] ∧
      single_resource Hadith.serialize ([] : List Hadith) =
        Except.error ApiError.notFound) ∧
    single_resource Hadith.serialize [h305] = Except.ok h305.serialize :=
  ⟨⟨rfl, ((singular_route_not_found_contract Hadith.serialize
      ([] : List Hadith)).1 rfl).1⟩,
    (singular_route_not_found_contract Hadith.serialize [h305]).2 h305 [] rfl⟩

/-- C6: on every paginated route, `limit` defaults to 50 when absent and is
clamped to a maximum of 100, `page` defaults to 1 and is 1-indexed (page 1
is the first window of the records), the returned `data` has length at most
the effective limit, and `total` is the count of all matching records with
no pagination applied. -/
theorem pagination_contract (records : List Hadith) :
    (paginate_results Hadith.serialize (Except.ok records) none none =
      db_paginate Hadith.serialize records 1 50 100) ∧
    (∀ (page limit : Int) (r : Page SerializedHadith),
      db_paginate Hadith.serialize records page limit 100 = Except.ok r →
      r.limit = (min limit 100).toNat ∧ r.limit ≤ 100 ∧
        r.data.length ≤ r.limit ∧ r.total = records.length) ∧
    (∀ (limit : Int) (r : Page SerializedHadith),
      db_paginate Hadith.serialize records 1 limit 100 = Except.ok r →
      r.data = (records.take (min limit 100).toNat).map Hadith.serialize) := by
  refine ⟨rfl, ?_, ?_⟩
  · intro page limit r h
    exact db_paginate_ok_fields Hadith.serialize records page limit r h
  · intro limit r h
    exact db_paginate_page_one Hadith.serialize records limit r h

theorem pagination_contract_witness :
    db_paginate Hadith.serialize [h305, h306] 1 2 100 = Except.ok page305 ∧
      (page305.limit = (min (2 : Int) 100).toNat ∧ page305.limit ≤ 100 ∧
        page305.data.length ≤ page305.limit ∧
        page305.total = ([h305, h306] : List Hadith).length) :=
  ⟨by decide, (pagination_contract [h305, h306]).2.1 1 2 page305 (by decide)⟩

/-- C7: the code, not the claim, is at fault here.  On the multi-filter
hadith route an unparsable `chapterId` goes through a bare `float(...)`
(src/main.py line 146), so the request dies with an uncaught `ValueError`
surfaced as HTTP 500, not with the `BadRequest` (400) the claim and §9 of
the spec require. -/
theorem hadiths_chapterId_fault_is_500 :
    api_hadiths [] ⟨none, none, some "abc", none⟩ none none =
      Except.error (ApiError.unhandled "ValueError") ∧
    (ApiError.unhandled "ValueError").code = 500 :=
  ⟨by decide, rfl⟩

/-- C8: the single-hadith URN lookup queries both namespaces: a record is in
the query result exactly when its Arabic URN or its English URN equals the
requested value, and a database record matching either field makes the
lookup succeed. -/
theorem hadith_urn_lookup_either_namespace (db : List Hadith) (urn : Int) :
    (∀ h : Hadith, h ∈ api_hadith_query db urn ↔
      h ∈ db ∧ (h.arabicURN = urn ∨ h.englishURN = urn)) ∧
    (∀ h ∈ db, (h.englishURN = urn ∨ h.arabicURN = urn) →
      ∃ r, api_hadith db urn = Except.ok r) := by
  constructor
  · intro h
    unfold api_hadith_query
    rw [List.mem_filter]
    simp [Bool.or_eq_true, beq_iff_eq]
  · intro h hm hmatch
    have hq : h ∈ api_hadith_query db urn := by
      unfold api_hadith_query
      rw [List.mem_filter]
      refine ⟨hm, ?_⟩
      simp only [Bool.or_eq_true, beq_iff_eq]
      tauto
    cases hquery : api_hadith_query db urn with
    | nil =>
        rw [hquery] at hq
        exact absurd hq (List.not_mem_nil h)
    | cons x xs =>
        refine ⟨x.serialize, ?_⟩
        unfold api_hadith
        rw [hquery]
        rfl

theorem hadith_urn_lookup_either_namespace_witness :
    (hAr7 ∈ api_hadith_query [hAr7] 7 ↔
      hAr7 ∈ [hAr7] ∧ (hAr7.arabicURN = 7 ∨ hAr7.englishURN = 7)) ∧
    (∃ r, api_hadith [hAr7] 7 = Except.ok r) :=
  ⟨(hadith_urn_lookup_either_namespace [hAr7] 7).1 hAr7,
    (hadith_urn_lookup_either_namespace [hAr7] 7).2 hAr7 (by decide)
      (Or.inr (by decide))⟩

/-- C9: both book routes query only published books (`status == 4`): every
record in either route's query result has published status, and everything
either route returns is the serialization of such a record, so a
non-published book is never exposed. -/
theorem book_routes_published_only (dbB : List Book) (name bookNumber : String) :
    (∀ b ∈ api_collection_books_query dbB name, b.status = 4) ∧
    (∀ b ∈ api_collection_book_query dbB name bookNumber, b.status = 4) ∧
    (∀ (limitArg pageArg : Option String) (r : Page SerializedBook),
      api_collection_books dbB name limitArg pageArg = Except.ok r →
      ∀ x ∈ r.data, ∃ b, b ∈ api_collection_books_query dbB name ∧
        x = Book.serialize b ∧ b.status = 4) ∧
    (∀ r : SerializedBook,
      api_collection_book dbB name bookNumber = Except.ok r →
      ∃ b, b ∈ api_collection_book_query dbB name bookNumber ∧
        r = Book.serialize b ∧ b.status = 4) := by
  refine ⟨api_collection_books_query_status dbB name,
    api_collection_book_query_status dbB name bookNumber, ?_, ?_⟩
  · intro la pa r hok x hx
    unfold api_collection_books at hok
    obtain ⟨b, hb, hxb⟩ := paginate_results_data_mem Book.serialize
      (api_collection_books_query dbB name) la pa r hok x hx
    exact ⟨b, hb, hxb, api_collection_books_query_status dbB name b hb⟩
  · intro r hok
    unfold api_collection_book at hok
    obtain ⟨b, hb, hrb⟩ := single_resource_ok Book.serialize _ r hok
    exact ⟨b, hb, hrb, api_collection_book_query_status dbB name bookNumber b hb⟩

theorem book_routes_published_only_witness :
    bookPub ∈ api_collection_books_query [bookPub] "bukhari" ∧
    bookPub.status = 4 :=
  ⟨by decide,
    (book_routes_published_only [bookPub] "bukhari" "1").1 bookPub (by decide)⟩

/-- C10: in the bulk resolver, the by-English-URN index is consulted first:
when some fetched record's English URN equals the identifier, the resolved
record is the English-index entry (itself a record whose English URN equals
the identifier), and the by-Arabic-URN index is consulted only when no
fetched record's English URN equals the identifier. -/
theorem bulk_urns_english_index_precedence (results : List Hadith) (u : Int) :
    ((∃ h ∈ results, h.englishURN = u) →
      ∃ h, byUrnGet (fun x => x.englishURN) results u = some h ∧
        h.englishURN = u ∧ h ∈ results ∧ resolveOne results u = some h) ∧
    ((∀ h ∈ results, h.englishURN ≠ u) →
      resolveOne results u = byUrnGet (fun x => x.arabicURN) results u) := by
  constructor
  · intro hex
    obtain ⟨h, hg⟩ := byUrnGet_isSome_of_mem (fun x => x.englishURN) results u hex
    have hp := byUrnGet_eq_some (fun x => x.englishURN) results u h hg
    refine ⟨h, hg, hp.2, hp.1, ?_⟩
    unfold resolveOne
    rw [hg]
  · intro hall
    have hnone : byUrnGet (fun x => x.englishURN) results u = none :=
      (byUrnGet_eq_none_iff (fun x => x.englishURN) results u).mpr hall
    unfold resolveOne
    rw [hnone]

theorem bulk_urns_english_index_precedence_witness :
    (∃ h ∈ ([hEng5, hAr5] : List Hadith), h.englishURN = 5) ∧
    (∃ h, byUrnGet (fun x => x.englishURN) [hEng5, hAr5] 5 = some h ∧
      h.englishURN = 5 ∧ h ∈ ([hEng5, hAr5] : List Hadith) ∧
      resolveOne [hEng5, hAr5] 5 = some h) :=
  ⟨⟨hEng5, by decide, by decide⟩,
    (bulk_urns_english_index_precedence [hEng5, hAr5] 5).1
      ⟨hEng5, by decide, by decide⟩⟩

end SunnahApi
